import Mathlib

/-!
Shallow embedding of the vcluster CLI "add to platform" flow
(package cli: AddVClusterHelm, addVClusterHelm, VClusterAddError)
and the platform backup command (BackupCmd.run).

Go errors are modelled as an inductive (errors.New / fmt.Errorf with a
wrap verb), external calls as environment records of result values, and
observable side effects as an explicit trace of Effect values.
-/

set_option autoImplicit false

namespace VClusterAdd

/-- A Go error value: either a fresh error (errors.New / context errors)
or a wrapping error built by a format verb, whose full rendered message
is stored alongside the wrapped inner error. -/
inductive GoError where
  | new (msg : String)
  | wrapf (msg : String) (inner : GoError)
  deriving Repr, DecidableEq

/-- The Error() message of a Go error. -/
def GoError.message : GoError → String
  | .new m => m
  | .wrapf m _ => m

/-- Opaque handle standing for a *rest.Config. -/
abbrev RestConfig := Nat

/-- Opaque handle standing for a *kubernetes.Clientset. -/
abbrev KubeClient := Nat

/-- AddVClusterOptions from the source. -/
structure AddVClusterOptions where
  Project : String
  ImportName : String
  Restart : Bool
  Insecure : Bool
  AccessKey : String
  Host : String
  CertificateAuthorityData : String
  All : Bool
  deriving Repr, DecidableEq

deriving instance DecidableEq for Except

/-- find.VCluster as used by this flow: name, namespace, the paused
status read by lifecycle.IsPaused, and the result of its
ClientFactory.ClientConfig() call. -/
structure VCluster where
  Name : String
  Namespace : String
  Paused : Bool
  ClientFactory : Except GoError RestConfig
  deriving Repr, DecidableEq

/-- Observable side effects of one registration invocation, in order. -/
inductive Effect where
  | question (vClusterName : String)
  | resume (vClusterName : String)
  | pollWake (vClusterName : String)
  | applySecret (client : KubeClient) (importName : String) (ns : String)
      (project : String) (accessKey : String) (host : String)
      (insecure : Bool) (caData : String)
  | deletePods (client : KubeClient) (selector : String) (ns : String)
  | infoDeferred (ns : String) (vClusterName : String)
  | doneAdded (ns : String) (vClusterName : String)
  deriving Repr, DecidableEq

/-- Results of the external calls made on behalf of one target. -/
structure TargetEnv where
  promptAnswer : Except GoError String
  resumeErr : Option GoError
  fuel : Nat
  refetch : Nat → Except GoError VCluster
  applyErr : Option GoError
  deleteErr : Option GoError

/-- The default choice offered when a target is sleeping. -/
def snoozeConfirmation : String :=
  "No. Leave it sleeping. (It will be added automatically on next wakeup)"

/-- wait.PollUntilContextTimeout over the wake condition: each tick
re-fetches the vCluster (GetVCluster); a fetch error stops the poll with
that error; a fetch of a non-paused vCluster succeeds with it; running
out of fuel is the context deadline. -/
def pollWake (fuel : Nat) (refetch : Nat → Except GoError VCluster) (t : Nat) :
    Except GoError VCluster :=
  match fuel with
  | 0 => .error (.new "context deadline exceeded")
  | n + 1 =>
    match refetch t with
    | .error e => .error e
    | .ok v => if v.Paused then pollWake n refetch (t + 1) else .ok v

/-- Lines 180-211 of addVClusterHelm: apply the platform secret, then,
when options.Restart is set, delete the workload pods; finally log the
per-target outcome. -/
def applyPhase (options : AddVClusterOptions) (vCluster : VCluster)
    (kubeClient : KubeClient) (env : TargetEnv) (snoozed : Bool)
    (pre : List Effect) : List Effect × Option GoError :=
  let effs := pre ++ [Effect.applySecret kubeClient options.ImportName
    vCluster.Namespace options.Project options.AccessKey options.Host
    options.Insecure options.CertificateAuthorityData]
  match env.applyErr with
  | some err => (effs, some err)
  | none =>
    match options.Restart with
    | true =>
      let effs := effs ++ [Effect.deletePods kubeClient
        ("app=vcluster,release=" ++ vCluster.Name) vCluster.Namespace]
      match env.deleteErr with
      | some err =>
          (effs, some (.wrapf ("delete vcluster workloads: " ++ err.message) err))
      | none =>
          (effs ++ [if snoozed then Effect.infoDeferred vCluster.Namespace vCluster.Name
                    else Effect.doneAdded vCluster.Namespace vCluster.Name], none)
    | false =>
      (effs ++ [if snoozed then Effect.infoDeferred vCluster.Namespace vCluster.Name
                else Effect.doneAdded vCluster.Namespace vCluster.Name], none)

/-- addVClusterHelm (the per-target operation): pause handling with the
wake prompt, optional resume plus wake poll, then the apply phase. -/
def addVClusterHelm (options : AddVClusterOptions) (vClusterName : String)
    (vCluster : VCluster) (kubeClient : KubeClient) (env : TargetEnv) :
    List Effect × Option GoError :=
  match vCluster.Paused with
  | true =>
    match env.promptAnswer with
    | .error err =>
        ([Effect.question vCluster.Name],
         some (.wrapf ("failed to capture your response " ++ err.message) err))
    | .ok answer =>
      if answer == snoozeConfirmation then
        applyPhase options vCluster kubeClient env true
          [Effect.question vCluster.Name]
      else
        match env.resumeErr with
        | some err =>
            ([Effect.question vCluster.Name, Effect.resume vClusterName],
             some (.wrapf ("failed to wake up vCluster " ++ vClusterName ++ ": "
               ++ err.message) err))
        | none =>
          match pollWake env.fuel env.refetch 0 with
          | .error err =>
              ([Effect.question vCluster.Name, Effect.resume vClusterName,
                Effect.pollWake vClusterName],
               some (.wrapf ("error waiting for vCluster to wake up "
                 ++ err.message) err))
          | .ok woken =>
              applyPhase options woken kubeClient env false
                [Effect.question vCluster.Name, Effect.resume vClusterName,
                 Effect.pollWake vClusterName]
  | false =>
    applyPhase options vCluster kubeClient env false []

/-- The error collector of the batch loop. -/
structure VClusterAddError where
  errs : List GoError
  deriving Repr, DecidableEq

/-- VClusterAddError.CombinedError: nil when empty, the stored error when
exactly one, otherwise a fresh error built by writing every stored
message followed by a pipe into a string builder. -/
def VClusterAddError.CombinedError (vce : VClusterAddError) : Option GoError :=
  match vce.errs with
  | [] => none
  | [e] => some e
  | _ =>
    some (.new (vce.errs.foldl (fun acc e => acc ++ (e.message ++ "|")) ""))

/-- VClusterAddError.addErr: record one target's result. -/
def VClusterAddError.addErr (vce : VClusterAddError) (vClusterName : String)
    (err : Option GoError) : VClusterAddError :=
  match err with
  | none => vce
  | some e =>
      ⟨vce.errs ++ [.wrapf ("cannot add vcluster " ++ vClusterName ++ ": "
        ++ e.message) e]⟩

/-- Environment of the batch loop: the clientset constructor and the
per-target external results, keyed by target name. -/
structure BatchEnv where
  newForConfig : RestConfig → Except GoError KubeClient
  target : String → TargetEnv

/-- Lines 83-105 of AddVClusterHelm: nothing to do on an empty list;
otherwise build one kube client from the first target's factory and run
the per-target operation for every target, collecting errors. -/
def AddVClusterHelmBatch (options : AddVClusterOptions)
    (vClusters : List VCluster) (env : BatchEnv) :
    List Effect × Option GoError :=
  match vClusters with
  | [] => ([], none)
  | v0 :: _ =>
    match v0.ClientFactory with
    | .error err => ([], some err)
    | .ok restConfig =>
      match env.newForConfig restConfig with
      | .error err => ([], some err)
      | .ok kubeClient =>
        let folded := vClusters.foldl
          (fun (acc : List Effect × VClusterAddError) v =>
            let r := addVClusterHelm options v.Name v kubeClient (env.target v.Name)
            (acc.1 ++ r.1, acc.2.addErr v.Name r.2))
          ([], ⟨[]⟩)
        (folded.1, folded.2.CombinedError)

/-- Results of the external calls made during target resolution. -/
structure ResolveEnv where
  hostClientConfig : Except GoError RestConfig
  newForConfig : RestConfig → Except GoError KubeClient
  listNamespaces : Except GoError (List String)
  listVClusters : String → Except GoError (List VCluster)
  getVCluster : Except GoError VCluster

/-- The namespace scan of the all-targets path: concatenate the
vClusters found per namespace, failing fast on any listing error. -/
def scanNamespaces (listVClusters : String → Except GoError (List VCluster)) :
    List String → Except GoError (List VCluster)
  | [] => .ok []
  | ns :: rest =>
    match listVClusters ns with
    | .error e => .error e
    | .ok vs =>
      match scanNamespaces listVClusters rest with
      | .error e => .error e
      | .ok more => .ok (vs ++ more)

/-- Lines 42-81 of AddVClusterHelm: resolve the target list, either by
scanning all namespaces (--all) or by fetching the one named vCluster. -/
def resolveTargets (options : AddVClusterOptions) (env : ResolveEnv) :
    Except GoError (List VCluster) :=
  match options.All with
  | true =>
    match env.hostClientConfig with
    | .error e => .error e
    | .ok rc =>
      match env.newForConfig rc with
      | .error e => .error e
      | .ok _ =>
        match env.listNamespaces with
        | .error e => .error e
        | .ok nss => scanNamespaces env.listVClusters nss
  | false =>
    match env.getVCluster with
    | .error e => .error e
    | .ok v => .ok [v]

/-- Full environment of one AddVClusterHelm invocation. -/
structure Env where
  resolve : ResolveEnv
  batch : BatchEnv

/-- AddVClusterHelm: resolve the targets, then run the batch. -/
def AddVClusterHelm (options : AddVClusterOptions) (env : Env) :
    List Effect × Option GoError :=
  match resolveTargets options env.resolve with
  | .error e => ([], some e)
  | .ok vs => AddVClusterHelmBatch options vs env.batch

/-- Is this effect an application of the platform secret? -/
def Effect.isApplySecret : Effect → Bool
  | .applySecret .. => true
  | .deletePods .. => false
  | .question _ => false
  | .resume _ => false
  | .pollWake _ => false
  | .infoDeferred _ _ => false
  | .doneAdded _ _ => false

/-- Is this effect a workload pod deletion? -/
def Effect.isDeletePods : Effect → Bool
  | .deletePods .. => true
  | .applySecret .. => false
  | .question _ => false
  | .resume _ => false
  | .pollWake _ => false
  | .infoDeferred _ _ => false
  | .doneAdded _ _ => false

/-- Does this effect act through the given kube client (trivially true
for effects that use no client)? -/
def Effect.usesClient (c : KubeClient) : Effect → Bool
  | .applySecret c' _ _ _ _ _ _ _ => c' == c
  | .deletePods c' _ _ => c' == c
  | .question _ => true
  | .resume _ => true
  | .pollWake _ => true
  | .infoDeferred _ _ => true
  | .doneAdded _ _ => true

/-- Scans a trace and checks that every pod deletion is preceded by an
earlier secret application; the flag records whether an application has
been seen so far. -/
def applyBeforeRestart : List Effect → Bool → Bool
  | [], _ => true
  | e :: rest, seen =>
    match e with
    | .applySecret .. => applyBeforeRestart rest true
    | .deletePods .. => seen && applyBeforeRestart rest seen
    | _ => applyBeforeRestart rest seen

/-- Recording-order concatenation of every error's message, each
followed by a pipe. -/
def pipeChain : List GoError → String
  | [] => ""
  | e :: rest => e.message ++ "|" ++ pipeChain rest

/-- The wake choice offered when a target is sleeping. -/
def wakeConfirmation : String := "Yes. Wake and add now."

/-- Sample options with the restart flag set. -/
def sampleOptionsRestart : AddVClusterOptions :=
  ⟨"proj", "imp", true, false, "key", "host", "ca", false⟩

/-- Sample options with the restart flag unset. -/
def sampleOptionsNoRestart : AddVClusterOptions :=
  ⟨"proj", "imp", false, false, "key", "host", "ca", false⟩

/-- Sample options selecting all targets. -/
def sampleOptionsAll : AddVClusterOptions :=
  ⟨"proj", "imp", false, false, "key", "host", "ca", true⟩

/-- A sleeping target with a healthy client factory. -/
def pausedVC : VCluster := ⟨"my-vcluster", "team-a", true, .ok 7⟩

/-- An active, healthy target. -/
def activeVC : VCluster := ⟨"healthy", "ns2", false, .ok 3⟩

/-- An active target whose own client factory fails. -/
def badFactoryVC : VCluster := ⟨"broken", "ns1", false, .error (.new "connection refused")⟩

/-- An active target whose secret application fails. -/
def applyFailVC : VCluster := ⟨"unlucky", "ns1", false, .ok 5⟩

/-- A refetch oracle that is never consulted. -/
def noRefetch : Nat → Except GoError VCluster := fun _ => .error (.new "unused")

/-- Target environment answering "leave sleeping" with all calls healthy. -/
def leaveSleepingEnv : TargetEnv := ⟨.ok snoozeConfirmation, none, 0, noRefetch, none, none⟩

/-- Target environment answering "wake now" whose resume command fails. -/
def resumeFailEnv : TargetEnv := ⟨.ok wakeConfirmation, some (.new "boom"), 0, noRefetch, none, none⟩

/-- Target environment answering "wake now" whose target never stops
reporting paused within the poll budget. -/
def stillPausedEnv : TargetEnv := ⟨.ok wakeConfirmation, none, 3, fun _ => .ok pausedVC, none, none⟩

/-- Target environment whose secret application fails. -/
def applyFailEnv : TargetEnv := ⟨.ok snoozeConfirmation, none, 0, noRefetch, some (.new "apply failed"), none⟩

/-- Target environment whose workload pod deletion fails. -/
def deleteFailEnv : TargetEnv := ⟨.ok snoozeConfirmation, none, 0, noRefetch, none, some (.new "delete failed")⟩

/-- Batch environment where every external call succeeds. -/
def idealBatchEnv : BatchEnv := ⟨fun rc => .ok rc, fun _ => leaveSleepingEnv⟩

/-- Batch environment where the target named "unlucky" fails its secret
application and every other call succeeds. -/
def mixedBatchEnv : BatchEnv :=
  ⟨fun rc => .ok rc, fun n => if n == "unlucky" then applyFailEnv else leaveSleepingEnv⟩

/-- Batch environment where the target named "my-vcluster" fails its
resume command and every other call succeeds. -/
def wakeFailBatchEnv : BatchEnv :=
  ⟨fun rc => .ok rc, fun n => if n == "my-vcluster" then resumeFailEnv else leaveSleepingEnv⟩

/-- Resolution environment whose namespace scan finds nothing. -/
def emptyResolveEnv : ResolveEnv :=
  ⟨.ok 0, fun rc => .ok rc, .ok [], fun _ => .ok [], .error (.new "unused")⟩

/-- Full environment whose resolution finds nothing. -/
def emptyEnv : Env := ⟨emptyResolveEnv, idealBatchEnv⟩

end VClusterAdd

namespace PlatformBackup

open VClusterAdd (GoError RestConfig KubeClient)

/-- One collected backup object, opaque to this flow. -/
abbrev BackupObject := String

/-- Observable side effects of one backup invocation, in order. -/
inductive BackupEffect where
  | question (ns : String)
  | collect (skip : List String)
  | warn (msg : String)
  | infoWriting (filename : String)
  | writeFile (filename : String) (contents : String) (perm : Nat)
  | doneWrote (filename : String)
  deriving Repr, DecidableEq

/-- BackupCmd flag fields used by run. -/
structure BackupCmd where
  Namespace : String
  Filename : String
  Skip : List String
  deriving Repr, DecidableEq

/-- Results of the external calls made by BackupCmd.run. -/
structure BackupEnv where
  kubeConfig : Except GoError RestConfig
  newForConfig : RestConfig → Except GoError KubeClient
  isInstalled : Except GoError Bool
  promptAnswer : Except GoError String
  clientNew : RestConfig → Except GoError KubeClient
  backupAll : KubeClient → List String → List BackupObject × List GoError
  toYAML : List BackupObject → Except GoError String
  writeFile : String → String → Nat → Option GoError

/-- The kube-config loading failure message of BackupCmd.run. -/
def kubeConfigErrMsg (inner : GoError) : String :=
  "there is an error loading your current kube config (" ++ inner.message
    ++ "), please make sure you have access to a kubernetes cluster and the command `kubectl get namespaces` is working"

/-- Lines 109-134 of BackupCmd.run: build the controller-runtime client,
collect everything not skipped, warn per collection error, serialize,
and write the backup file with mode 0644. -/
def backupCollectAndWrite (cmd : BackupCmd) (env : BackupEnv)
    (kubeConfig : RestConfig) (pre : List BackupEffect) :
    List BackupEffect × Option GoError :=
  match env.clientNew kubeConfig with
  | .error err => (pre, some err)
  | .ok client =>
    let collected := env.backupAll client cmd.Skip
    let effs := pre ++ [BackupEffect.collect cmd.Skip]
      ++ collected.2.map (fun e => BackupEffect.warn e.message)
    match env.toYAML collected.1 with
    | .error err => (effs, some err)
    | .ok backupBytes =>
      let effs := effs ++ [BackupEffect.infoWriting cmd.Filename,
        BackupEffect.writeFile cmd.Filename backupBytes 0o644]
      match env.writeFile cmd.Filename backupBytes 0o644 with
      | some err => (effs, some err)
      | none => (effs ++ [BackupEffect.doneWrote cmd.Filename], none)

/-- BackupCmd.run: load the kube config, check the installation (with a
continue prompt when it is missing), then collect and write. -/
def BackupCmd.run (cmd : BackupCmd) (env : BackupEnv) :
    List BackupEffect × Option GoError :=
  match env.kubeConfig with
  | .error err => ([], some (.wrapf (kubeConfigErrMsg err) err))
  | .ok kubeConfig =>
    match env.newForConfig kubeConfig with
    | .error err => ([], some (.wrapf (kubeConfigErrMsg err) err))
    | .ok _ =>
      match env.isInstalled with
      | .error err => ([], some err)
      | .ok true => backupCollectAndWrite cmd env kubeConfig []
      | .ok false =>
        match env.promptAnswer with
        | .error err => ([BackupEffect.question cmd.Namespace], some err)
        | .ok answer =>
          if answer == "Yes" then
            backupCollectAndWrite cmd env kubeConfig
              [BackupEffect.question cmd.Namespace]
          else
            ([BackupEffect.question cmd.Namespace], none)

/-- Sample backup command flags. -/
def sampleBackupCmd : BackupCmd := ⟨"loft", "backup.yaml", ["users"]⟩

/-- Backup environment where everything succeeds but one resource kind
fails to list. -/
def okBackupEnv : BackupEnv :=
  ⟨.ok 1, fun rc => .ok rc, .ok true, .ok "Yes", fun rc => .ok rc,
   fun _ _ => (["obj1"], [.new "cannot list teams"]),
   fun objs => .ok (String.join objs), fun _ _ _ => none⟩

/-- Backup environment where the platform is not installed and the
operator declines the continue prompt. -/
def declineBackupEnv : BackupEnv :=
  ⟨.ok 1, fun rc => .ok rc, .ok false, .ok "No", fun rc => .ok rc,
   fun _ _ => ([], []), fun _ => .ok "", fun _ _ _ => none⟩

end PlatformBackup

/-! ## Theorems -/

namespace VClusterAdd

theorem foldl_pipe_eq_pipeChain (l : List GoError) (acc : String) :
    l.foldl (fun acc e => acc ++ (e.message ++ "|")) acc = acc ++ pipeChain l := by
  induction l generalizing acc with
  | nil => simp [pipeChain]
  | cons x xs ih => simp [pipeChain, ih, String.append_assoc]

/-- C3: CombinedError returns none on an empty sequence and the single
stored error itself on a one-element sequence; for two or more stored
errors it returns one fresh error whose message lists every stored
error's message in recording order, each followed by a pipe (the
pipe-join of the messages plus one trailing pipe). -/
theorem C3_CombinedError_characterization (e e1 e2 : GoError) (rest : List GoError) :
    VClusterAddError.CombinedError ⟨[]⟩ = none ∧
    VClusterAddError.CombinedError ⟨[e]⟩ = some e ∧
    VClusterAddError.CombinedError ⟨e1 :: e2 :: rest⟩
      = some (.new (pipeChain (e1 :: e2 :: rest))) := by
  refine ⟨rfl, rfl, ?_⟩
  simp [VClusterAddError.CombinedError, foldl_pipe_eq_pipeChain, pipeChain,
    String.append_assoc]

/-- C3 counterexample: with two stored errors of messages "a" and "b",
the combined message is "a|b|", not the pipe-join "a|b" the claim
states. -/
theorem C3_counterexample :
    (VClusterAddError.CombinedError ⟨[GoError.new "a", GoError.new "b"]⟩).map
      GoError.message ≠ some "a|b" := by
  decide

/-- C4: addErr is a no-op on a nil error and otherwise appends exactly
one wrapped error of the form "cannot add vcluster <name>: <err>"; the
stored sequence is empty exactly when CombinedError reports success. -/
theorem C4_addErr_contract (vce : VClusterAddError) (name : String) (err : GoError) :
    vce.addErr name none = vce ∧
    vce.addErr name (some err)
      = ⟨vce.errs ++ [.wrapf ("cannot add vcluster " ++ name ++ ": " ++ err.message) err]⟩ ∧
    (vce.CombinedError = none ↔ vce.errs = []) := by
  obtain ⟨errs⟩ := vce
  refine ⟨rfl, rfl, ?_⟩
  cases errs with
  | nil => simp [VClusterAddError.CombinedError]
  | cons a t =>
    cases t with
    | nil => simp [VClusterAddError.CombinedError]
    | cons b r => simp [VClusterAddError.CombinedError]

/-- C5: whenever target resolution produces an empty list, the
registration operation returns success with an empty effect trace. -/
theorem C5_zero_targets_noop (options : AddVClusterOptions) (env : Env)
    (h : resolveTargets options env.resolve = .ok []) :
    AddVClusterHelm options env = ([], none) := by
  simp [AddVClusterHelm, h, AddVClusterHelmBatch]

/-- C5 witness: an all-targets invocation over an empty cluster. -/
theorem C5_zero_targets_noop_witness :
    resolveTargets sampleOptionsAll emptyEnv.resolve = .ok [] ∧
    AddVClusterHelm sampleOptionsAll emptyEnv = ([], none) :=
  ⟨rfl, C5_zero_targets_noop sampleOptionsAll emptyEnv rfl⟩

end VClusterAdd

namespace PlatformBackup

open VClusterAdd (GoError RestConfig KubeClient)

/-- C10: when the installation check reports not installed and the
operator's captured answer is anything other than "Yes", the backup
command returns success after the prompt, with no collection and no file
write. -/
theorem C10_backup_decline_returns_nil (cmd : BackupCmd) (env : BackupEnv)
    (rc : RestConfig) (k : KubeClient) (answer : String)
    (h1 : env.kubeConfig = .ok rc) (h2 : env.newForConfig rc = .ok k)
    (h3 : env.isInstalled = .ok false) (h4 : env.promptAnswer = .ok answer)
    (h5 : answer ≠ "Yes") :
    BackupCmd.run cmd env = ([BackupEffect.question cmd.Namespace], none) := by
  simp [BackupCmd.run, h1, h2, h3, h4, h5]

/-- C10 witness: the operator answers "No". -/
theorem C10_backup_decline_returns_nil_witness :
    declineBackupEnv.isInstalled = Except.ok false ∧
    declineBackupEnv.promptAnswer = Except.ok "No" ∧
    BackupCmd.run sampleBackupCmd declineBackupEnv
      = ([BackupEffect.question "loft"], none) :=
  ⟨rfl, rfl,
   C10_backup_decline_returns_nil sampleBackupCmd declineBackupEnv 1 1 "No"
     rfl rfl rfl rfl (by decide)⟩

end PlatformBackup

namespace VClusterAdd

/-- C1 (amended): for a sleeping target with "leave sleeping" chosen,
the platform secret is still applied; but pod deletion is governed
solely by the restart flag: none happens with the flag unset, while with
the flag set (and a successful secret apply) the workload pods are
deleted even though the target is left sleeping. -/
theorem C1_leave_sleeping_secret_and_restart_flag
    (options : AddVClusterOptions) (name : String) (v : VCluster)
    (c : KubeClient) (env : TargetEnv)
    (hp : v.Paused = true)
    (ha : env.promptAnswer = .ok snoozeConfirmation) :
    (Effect.applySecret c options.ImportName v.Namespace options.Project
        options.AccessKey options.Host options.Insecure
        options.CertificateAuthorityData
      ∈ (addVClusterHelm options name v c env).1) ∧
    (options.Restart = false →
      ∀ e ∈ (addVClusterHelm options name v c env).1, e.isDeletePods = false) ∧
    (options.Restart = true → env.applyErr = none →
      Effect.deletePods c ("app=vcluster,release=" ++ v.Name) v.Namespace
        ∈ (addVClusterHelm options name v c env).1) := by
  have hrun : addVClusterHelm options name v c env
      = applyPhase options v c env true [Effect.question v.Name] := by
    simp [addVClusterHelm, hp, ha]
  refine ⟨?_, ?_, ?_⟩
  · rw [hrun]
    cases hae : env.applyErr with
    | some e => simp [applyPhase, hae]
    | none =>
      cases hr : options.Restart with
      | false => simp [applyPhase, hae, hr]
      | true =>
        cases hde : env.deleteErr with
        | some e => simp [applyPhase, hae, hr, hde]
        | none => simp [applyPhase, hae, hr, hde]
  · intro hr
    rw [hrun]
    cases hae : env.applyErr with
    | some e => simp [applyPhase, hae, Effect.isDeletePods]
    | none => simp [applyPhase, hae, hr, Effect.isDeletePods]
  · intro hr hae
    rw [hrun]
    cases hde : env.deleteErr with
    | some e => simp [applyPhase, hae, hr, hde]
    | none => simp [applyPhase, hae, hr, hde]

/-- C1 witness: a sleeping target left sleeping under the quiet
environment, with the restart flag unset: the secret is applied and no
pod deletion happens. -/
theorem C1_leave_sleeping_secret_and_restart_flag_witness :
    pausedVC.Paused = true ∧
    leaveSleepingEnv.promptAnswer = Except.ok snoozeConfirmation ∧
    (Effect.applySecret 7 sampleOptionsNoRestart.ImportName pausedVC.Namespace
        sampleOptionsNoRestart.Project sampleOptionsNoRestart.AccessKey
        sampleOptionsNoRestart.Host sampleOptionsNoRestart.Insecure
        sampleOptionsNoRestart.CertificateAuthorityData
      ∈ (addVClusterHelm sampleOptionsNoRestart "my-vcluster" pausedVC 7
          leaveSleepingEnv).1) ∧
    (∀ e ∈ (addVClusterHelm sampleOptionsNoRestart "my-vcluster" pausedVC 7
        leaveSleepingEnv).1, e.isDeletePods = false) :=
  ⟨rfl, rfl,
   (C1_leave_sleeping_secret_and_restart_flag sampleOptionsNoRestart
     "my-vcluster" pausedVC 7 leaveSleepingEnv rfl rfl).1,
   (C1_leave_sleeping_secret_and_restart_flag sampleOptionsNoRestart
     "my-vcluster" pausedVC 7 leaveSleepingEnv rfl rfl).2.1 rfl⟩

/-- C1 counterexample: a sleeping target, "leave sleeping" chosen, and
the restart flag set: the workload pod deletion of the restart step
still happens, refuting "no workload restart occurs for every value of
the restart flag". -/
theorem C1_counterexample :
    Effect.deletePods 7 "app=vcluster,release=my-vcluster" "team-a"
      ∈ (addVClusterHelm sampleOptionsRestart "my-vcluster" pausedVC 7
          leaveSleepingEnv).1 := by
  decide

theorem batch_pair_unfold (options : AddVClusterOptions) (v1 v2 : VCluster)
    (env : BatchEnv) (rc : RestConfig) (c : KubeClient)
    (hf : v1.ClientFactory = .ok rc) (hc : env.newForConfig rc = .ok c) :
    AddVClusterHelmBatch options [v1, v2] env
      = ((addVClusterHelm options v1.Name v1 c (env.target v1.Name)).1
          ++ (addVClusterHelm options v2.Name v2 c (env.target v2.Name)).1,
         (((VClusterAddError.mk []).addErr v1.Name
             (addVClusterHelm options v1.Name v1 c (env.target v1.Name)).2).addErr
           v2.Name
             (addVClusterHelm options v2.Name v2 c (env.target v2.Name)).2).CombinedError) := by
  simp [AddVClusterHelmBatch, hf, hc]

/-- C2 (amended): once the shared bootstrap client is built from the
first target's factory, a per-target failure (here a failed secret
apply on the first target) never aborts the batch: the sibling target is
still registered and the combined error is the single wrapped error
naming the failing target. The claim's own scenario fails on the code
because a target's own connection is never resolved; a first-target
factory failure aborts the whole batch (see the counterexample). -/
theorem C2_per_target_failure_does_not_abort
    (options : AddVClusterOptions) (v1 v2 : VCluster) (env : BatchEnv)
    (rc : RestConfig) (c : KubeClient) (e : GoError)
    (hf : v1.ClientFactory = .ok rc)
    (hc : env.newForConfig rc = .ok c)
    (hp1 : v1.Paused = false) (hp2 : v2.Paused = false)
    (ha1 : (env.target v1.Name).applyErr = some e)
    (ha2 : (env.target v2.Name).applyErr = none)
    (hr : options.Restart = false) :
    (Effect.applySecret c options.ImportName v2.Namespace options.Project
        options.AccessKey options.Host options.Insecure
        options.CertificateAuthorityData
      ∈ (AddVClusterHelmBatch options [v1, v2] env).1) ∧
    (AddVClusterHelmBatch options [v1, v2] env).2
      = some (.wrapf ("cannot add vcluster " ++ v1.Name ++ ": " ++ e.message) e) := by
  rw [batch_pair_unfold options v1 v2 env rc c hf hc]
  have h1 : addVClusterHelm options v1.Name v1 c (env.target v1.Name)
      = ([Effect.applySecret c options.ImportName v1.Namespace options.Project
           options.AccessKey options.Host options.Insecure
           options.CertificateAuthorityData], some e) := by
    simp [addVClusterHelm, hp1, applyPhase, ha1]
  have h2 : addVClusterHelm options v2.Name v2 c (env.target v2.Name)
      = ([Effect.applySecret c options.ImportName v2.Namespace options.Project
           options.AccessKey options.Host options.Insecure
           options.CertificateAuthorityData,
          Effect.doneAdded v2.Namespace v2.Name], none) := by
    simp [addVClusterHelm, hp2, applyPhase, ha2, hr]
  rw [h1, h2]
  refine ⟨by simp, ?_⟩
  simp [VClusterAddError.addErr, VClusterAddError.CombinedError]

/-- C2 witness: the first target's secret apply fails while the second
target registers; the combined error names the first target. -/
theorem C2_per_target_failure_does_not_abort_witness :
    applyFailVC.ClientFactory = Except.ok 5 ∧
    (mixedBatchEnv.target applyFailVC.Name).applyErr
      = some (GoError.new "apply failed") ∧
    (Effect.applySecret 5 sampleOptionsNoRestart.ImportName activeVC.Namespace
        sampleOptionsNoRestart.Project sampleOptionsNoRestart.AccessKey
        sampleOptionsNoRestart.Host sampleOptionsNoRestart.Insecure
        sampleOptionsNoRestart.CertificateAuthorityData
      ∈ (AddVClusterHelmBatch sampleOptionsNoRestart [applyFailVC, activeVC]
          mixedBatchEnv).1) ∧
    (AddVClusterHelmBatch sampleOptionsNoRestart [applyFailVC, activeVC]
        mixedBatchEnv).2
      = some (.wrapf ("cannot add vcluster " ++ applyFailVC.Name ++ ": "
          ++ (GoError.new "apply failed").message) (GoError.new "apply failed")) :=
  ⟨rfl, rfl,
   (C2_per_target_failure_does_not_abort sampleOptionsNoRestart applyFailVC
     activeVC mixedBatchEnv 5 5 (GoError.new "apply failed")
     rfl rfl rfl rfl rfl rfl rfl).1,
   (C2_per_target_failure_does_not_abort sampleOptionsNoRestart applyFailVC
     activeVC mixedBatchEnv 5 5 (GoError.new "apply failed")
     rfl rfl rfl rfl rfl rfl rfl).2⟩

/-- C2 counterexample: with the failing target first, its connection
resolution failure aborts the whole batch: nothing is registered (empty
effect trace, so the healthy sibling is not registered) and the returned
error is the bare factory error, not a combined error naming the
target. -/
theorem C2_counterexample :
    AddVClusterHelmBatch sampleOptionsNoRestart [badFactoryVC, activeVC]
        idealBatchEnv
      = ([], some (GoError.new "connection refused")) := by
  rfl

end VClusterAdd

namespace VClusterAdd

theorem wake_messages_distinct (a b : String) :
    "failed to wake up vCluster " ++ a
      ≠ "error waiting for vCluster to wake up " ++ b := by
  intro h
  have hd := congrArg String.data h
  rw [String.data_append, String.data_append] at hd
  have e1 : "failed to wake up vCluster ".data
      = 'f' :: "ailed to wake up vCluster ".data := by decide
  have e2 : "error waiting for vCluster to wake up ".data
      = 'e' :: "rror waiting for vCluster to wake up ".data := by decide
  rw [e1, e2, List.cons_append, List.cons_append] at hd
  injection hd with h1 _
  exact absurd h1 (by decide)

theorem pollWake_stays_paused (refetch : Nat → Except GoError VCluster)
    (h : ∀ t, ∃ u, refetch t = .ok u ∧ u.Paused = true) :
    ∀ fuel t0, pollWake fuel refetch t0 = .error (.new "context deadline exceeded") := by
  intro fuel
  induction fuel with
  | zero => intro t0; rfl
  | succ n ih =>
    intro t0
    obtain ⟨u, hu, hpu⟩ := h t0
    simp only [pollWake, hu, hpu, if_true]
    exact ih (t0 + 1)

/-- C6: for a sleeping target with "wake now" chosen, a resume-command
failure yields the "failed to wake up vCluster" wrapping, while a poll
that never sees the target resume within its budget yields the "error
waiting for vCluster to wake up" wrapping of the deadline error; the two
messages differ for every name and cause; and whatever the first
target's result, the second target of a batch is still registered. -/
theorem C6_wake_failure_modes
    (options : AddVClusterOptions) (name : String) (v : VCluster)
    (c : KubeClient) (env : TargetEnv) (e : GoError)
    (hp : v.Paused = true)
    (ha : env.promptAnswer = .ok wakeConfirmation) :
    (env.resumeErr = some e →
      (addVClusterHelm options name v c env).2
        = some (.wrapf ("failed to wake up vCluster " ++ name ++ ": "
            ++ e.message) e)) ∧
    (env.resumeErr = none →
      (∀ t, ∃ u, env.refetch t = .ok u ∧ u.Paused = true) →
      (addVClusterHelm options name v c env).2
        = some (.wrapf ("error waiting for vCluster to wake up "
            ++ GoError.message (.new "context deadline exceeded"))
            (.new "context deadline exceeded"))) ∧
    (∀ s1 s2 : String,
      "failed to wake up vCluster " ++ s1
        ≠ "error waiting for vCluster to wake up " ++ s2) ∧
    (∀ (benv : BatchEnv) (rc : RestConfig) (kc : KubeClient) (v2 : VCluster),
      v.ClientFactory = .ok rc → benv.newForConfig rc = .ok kc →
      v2.Paused = false → (benv.target v2.Name).applyErr = none →
      options.Restart = false →
      Effect.applySecret kc options.ImportName v2.Namespace options.Project
          options.AccessKey options.Host options.Insecure
          options.CertificateAuthorityData
        ∈ (AddVClusterHelmBatch options [v, v2] benv).1) := by
  have hne : (wakeConfirmation == snoozeConfirmation) = false := by decide
  refine ⟨?_, ?_, fun s1 s2 => wake_messages_distinct s1 s2, ?_⟩
  · intro hre
    simp [addVClusterHelm, hp, ha, hne, hre]
  · intro hre hpoll
    simp [addVClusterHelm, hp, ha, hne, hre,
      pollWake_stays_paused env.refetch hpoll env.fuel 0, GoError.message]
  · intro benv rc kc v2 hcf hnc hp2 ha2 hr
    rw [batch_pair_unfold options v v2 benv rc kc hcf hnc]
    have h2 : addVClusterHelm options v2.Name v2 kc (benv.target v2.Name)
        = ([Effect.applySecret kc options.ImportName v2.Namespace options.Project
             options.AccessKey options.Host options.Insecure
             options.CertificateAuthorityData,
            Effect.doneAdded v2.Namespace v2.Name], none) := by
      simp [addVClusterHelm, hp2, applyPhase, ha2, hr]
    simp [h2]

/-- C6 witness: a sleeping target whose resume command fails with
"boom" under the wake answer. -/
theorem C6_wake_failure_modes_witness :
    pausedVC.Paused = true ∧
    resumeFailEnv.promptAnswer = Except.ok wakeConfirmation ∧
    (addVClusterHelm sampleOptionsNoRestart "my-vcluster" pausedVC 7
        resumeFailEnv).2
      = some (.wrapf ("failed to wake up vCluster " ++ "my-vcluster" ++ ": "
          ++ (GoError.new "boom").message) (GoError.new "boom")) :=
  ⟨rfl, rfl,
   (C6_wake_failure_modes sampleOptionsNoRestart "my-vcluster" pausedVC 7
     resumeFailEnv (GoError.new "boom") rfl rfl).1 rfl⟩

end VClusterAdd

namespace VClusterAdd

theorem applyBeforeRestart_append_clean (pre tail : List Effect) (seen : Bool)
    (h : ∀ e ∈ pre, e.isApplySecret = false ∧ e.isDeletePods = false) :
    applyBeforeRestart (pre ++ tail) seen = applyBeforeRestart tail seen := by
  induction pre with
  | nil => rfl
  | cons x xs ih =>
    have hx := h x (by simp)
    have hxs : ∀ e ∈ xs, e.isApplySecret = false ∧ e.isDeletePods = false :=
      fun e he => h e (by simp [he])
    cases x with
    | applySecret a b cn d f g i j => simp [Effect.isApplySecret] at hx
    | deletePods a b cn => simp [Effect.isDeletePods] at hx
    | question n => simpa [applyBeforeRestart] using ih hxs
    | resume n => simpa [applyBeforeRestart] using ih hxs
    | pollWake n => simpa [applyBeforeRestart] using ih hxs
    | infoDeferred a b => simpa [applyBeforeRestart] using ih hxs
    | doneAdded a b => simpa [applyBeforeRestart] using ih hxs

theorem applyPhase_applyBeforeRestart (options : AddVClusterOptions)
    (v : VCluster) (c : KubeClient) (env : TargetEnv) (snoozed : Bool)
    (pre : List Effect) (seen : Bool)
    (h : ∀ e ∈ pre, e.isApplySecret = false ∧ e.isDeletePods = false) :
    applyBeforeRestart (applyPhase options v c env snoozed pre).1 seen = true := by
  have key : ∀ tail, applyBeforeRestart (pre ++ tail) seen
      = applyBeforeRestart tail seen :=
    fun tail => applyBeforeRestart_append_clean pre tail seen h
  cases hae : env.applyErr <;>
    cases hr : options.Restart <;>
      cases hde : env.deleteErr <;>
        cases snoozed <;>
          simp [applyPhase, hae, hr, hde, key, applyBeforeRestart,
            List.append_assoc]

theorem applyPhase_deletePods_needs_apply (options : AddVClusterOptions)
    (v : VCluster) (c : KubeClient) (env : TargetEnv) (snoozed : Bool)
    (pre : List Effect)
    (h : ∀ e ∈ pre, e.isDeletePods = false)
    (hd : (applyPhase options v c env snoozed pre).1.any Effect.isDeletePods = true) :
    env.applyErr = none := by
  cases hae : env.applyErr with
  | none => rfl
  | some err =>
    exfalso
    simp only [applyPhase, hae, List.any_eq_true] at hd
    obtain ⟨x, hx, hdx⟩ := hd
    rw [List.mem_append] at hx
    rcases hx with hx | hx
    · rw [h x hx] at hdx
      exact Bool.false_ne_true hdx
    · rw [List.mem_singleton] at hx
      subst hx
      exact Bool.false_ne_true hdx

theorem addVClusterHelm_applyBeforeRestart (options : AddVClusterOptions)
    (name : String) (v : VCluster) (c : KubeClient) (env : TargetEnv) :
    applyBeforeRestart (addVClusterHelm options name v c env).1 false = true := by
  have hclean1 : ∀ e ∈ [Effect.question v.Name],
      e.isApplySecret = false ∧ e.isDeletePods = false := by
    simp [Effect.isApplySecret, Effect.isDeletePods]
  have hclean3 : ∀ e ∈ [Effect.question v.Name, Effect.resume name,
      Effect.pollWake name], e.isApplySecret = false ∧ e.isDeletePods = false := by
    simp [Effect.isApplySecret, Effect.isDeletePods]
  cases hp : v.Paused with
  | false =>
    have hrun : addVClusterHelm options name v c env
        = applyPhase options v c env false [] := by
      simp [addVClusterHelm, hp]
    rw [hrun]
    exact applyPhase_applyBeforeRestart options v c env false [] false (by simp)
  | true =>
    cases hpa : env.promptAnswer with
    | error err => simp [addVClusterHelm, hp, hpa, applyBeforeRestart]
    | ok answer =>
      cases hb : answer == snoozeConfirmation with
      | true =>
        have hrun : addVClusterHelm options name v c env
            = applyPhase options v c env true [Effect.question v.Name] := by
          simp [addVClusterHelm, hp, hpa, hb]
        rw [hrun]
        exact applyPhase_applyBeforeRestart options v c env true
          [Effect.question v.Name] false hclean1
      | false =>
        cases hre : env.resumeErr with
        | some err => simp [addVClusterHelm, hp, hpa, hb, hre, applyBeforeRestart]
        | none =>
          cases hpw : pollWake env.fuel env.refetch 0 with
          | error err =>
            simp [addVClusterHelm, hp, hpa, hb, hre, hpw, applyBeforeRestart]
          | ok woken =>
            have hrun : addVClusterHelm options name v c env
                = applyPhase options woken c env false
                    [Effect.question v.Name, Effect.resume name,
                     Effect.pollWake name] := by
              simp [addVClusterHelm, hp, hpa, hb, hre, hpw]
            rw [hrun]
            exact applyPhase_applyBeforeRestart options woken c env false
              [Effect.question v.Name, Effect.resume name, Effect.pollWake name]
              false hclean3

theorem addVClusterHelm_deletePods_needs_apply (options : AddVClusterOptions)
    (name : String) (v : VCluster) (c : KubeClient) (env : TargetEnv)
    (hd : (addVClusterHelm options name v c env).1.any Effect.isDeletePods = true) :
    env.applyErr = none := by
  have hclean1 : ∀ e ∈ [Effect.question v.Name], e.isDeletePods = false := by
    simp [Effect.isDeletePods]
  have hclean3 : ∀ e ∈ [Effect.question v.Name, Effect.resume name,
      Effect.pollWake name], e.isDeletePods = false := by
    simp [Effect.isDeletePods]
  cases hp : v.Paused with
  | false =>
    have hrun : addVClusterHelm options name v c env
        = applyPhase options v c env false [] := by
      simp [addVClusterHelm, hp]
    rw [hrun] at hd
    exact applyPhase_deletePods_needs_apply options v c env false [] (by simp) hd
  | true =>
    cases hpa : env.promptAnswer with
    | error err => simp [addVClusterHelm, hp, hpa, Effect.isDeletePods] at hd
    | ok answer =>
      cases hb : answer == snoozeConfirmation with
      | true =>
        have hrun : addVClusterHelm options name v c env
            = applyPhase options v c env true [Effect.question v.Name] := by
          simp [addVClusterHelm, hp, hpa, hb]
        rw [hrun] at hd
        exact applyPhase_deletePods_needs_apply options v c env true
          [Effect.question v.Name] hclean1 hd
      | false =>
        cases hre : env.resumeErr with
        | some err =>
          simp [addVClusterHelm, hp, hpa, hb, hre, Effect.isDeletePods] at hd
        | none =>
          cases hpw : pollWake env.fuel env.refetch 0 with
          | error err =>
            simp [addVClusterHelm, hp, hpa, hb, hre, hpw, Effect.isDeletePods] at hd
          | ok woken =>
            have hrun : addVClusterHelm options name v c env
                = applyPhase options woken c env false
                    [Effect.question v.Name, Effect.resume name,
                     Effect.pollWake name] := by
              simp [addVClusterHelm, hp, hpa, hb, hre, hpw]
            rw [hrun] at hd
            exact applyPhase_deletePods_needs_apply options woken c env false
              [Effect.question v.Name, Effect.resume name, Effect.pollWake name]
              hclean3 hd

/-- C7: in every run of the per-target operation a pod deletion can only
appear after an earlier secret application, and only when the secret
apply reported success; on the active path a failing deletion yields the
"delete vcluster workloads" wrapping while the applied secret stays in
the trace untouched (no rollback effect exists). -/
theorem C7_apply_precedes_restart
    (options : AddVClusterOptions) (name : String) (v : VCluster)
    (c : KubeClient) (env : TargetEnv) (e : GoError)
    (hp : v.Paused = false) :
    (∀ (options' : AddVClusterOptions) (name' : String) (v' : VCluster)
        (c' : KubeClient) (env' : TargetEnv),
      applyBeforeRestart (addVClusterHelm options' name' v' c' env').1 false
          = true ∧
      ((addVClusterHelm options' name' v' c' env').1.any Effect.isDeletePods
          = true → env'.applyErr = none)) ∧
    (env.applyErr = none → options.Restart = true → env.deleteErr = some e →
      addVClusterHelm options name v c env
        = ([Effect.applySecret c options.ImportName v.Namespace options.Project
              options.AccessKey options.Host options.Insecure
              options.CertificateAuthorityData,
            Effect.deletePods c ("app=vcluster,release=" ++ v.Name) v.Namespace],
           some (.wrapf ("delete vcluster workloads: " ++ e.message) e))) := by
  refine ⟨fun options' name' v' c' env' =>
    ⟨addVClusterHelm_applyBeforeRestart options' name' v' c' env',
     addVClusterHelm_deletePods_needs_apply options' name' v' c' env'⟩, ?_⟩
  intro hae hr hde
  simp [addVClusterHelm, hp, applyPhase, hae, hr, hde]

/-- C7 witness: an active target with the restart flag set whose pod
deletion fails. -/
theorem C7_apply_precedes_restart_witness :
    activeVC.Paused = false ∧
    addVClusterHelm sampleOptionsRestart "healthy" activeVC 3 deleteFailEnv
      = ([Effect.applySecret 3 sampleOptionsRestart.ImportName activeVC.Namespace
            sampleOptionsRestart.Project sampleOptionsRestart.AccessKey
            sampleOptionsRestart.Host sampleOptionsRestart.Insecure
            sampleOptionsRestart.CertificateAuthorityData,
          Effect.deletePods 3 ("app=vcluster,release=" ++ activeVC.Name)
            activeVC.Namespace],
         some (.wrapf ("delete vcluster workloads: "
             ++ (GoError.new "delete failed").message)
           (GoError.new "delete failed"))) :=
  ⟨rfl, (C7_apply_precedes_restart sampleOptionsRestart "healthy" activeVC 3
      deleteFailEnv (GoError.new "delete failed") rfl).2 rfl rfl rfl⟩

end VClusterAdd

namespace VClusterAdd

theorem applyPhase_all_usesClient (options : AddVClusterOptions)
    (v : VCluster) (c : KubeClient) (env : TargetEnv) (snoozed : Bool)
    (pre : List Effect)
    (h : pre.all (Effect.usesClient c) = true) :
    (applyPhase options v c env snoozed pre).1.all (Effect.usesClient c) = true := by
  cases hae : env.applyErr <;>
    cases hr : options.Restart <;>
      cases hde : env.deleteErr <;>
        cases snoozed <;>
          simp [applyPhase, hae, hr, hde, List.all_append, h, Effect.usesClient]

theorem addVClusterHelm_all_usesClient (options : AddVClusterOptions)
    (name : String) (v : VCluster) (c : KubeClient) (env : TargetEnv) :
    (addVClusterHelm options name v c env).1.all (Effect.usesClient c) = true := by
  cases hp : v.Paused with
  | false =>
    have hrun : addVClusterHelm options name v c env
        = applyPhase options v c env false [] := by
      simp [addVClusterHelm, hp]
    rw [hrun]
    exact applyPhase_all_usesClient options v c env false [] rfl
  | true =>
    cases hpa : env.promptAnswer with
    | error err => simp [addVClusterHelm, hp, hpa, Effect.usesClient]
    | ok answer =>
      cases hb : answer == snoozeConfirmation with
      | true =>
        have hrun : addVClusterHelm options name v c env
            = applyPhase options v c env true [Effect.question v.Name] := by
          simp [addVClusterHelm, hp, hpa, hb]
        rw [hrun]
        exact applyPhase_all_usesClient options v c env true
          [Effect.question v.Name] rfl
      | false =>
        cases hre : env.resumeErr with
        | some err => simp [addVClusterHelm, hp, hpa, hb, hre, Effect.usesClient]
        | none =>
          cases hpw : pollWake env.fuel env.refetch 0 with
          | error err =>
            simp [addVClusterHelm, hp, hpa, hb, hre, hpw, Effect.usesClient]
          | ok woken =>
            have hrun : addVClusterHelm options name v c env
                = applyPhase options woken c env false
                    [Effect.question v.Name, Effect.resume name,
                     Effect.pollWake name] := by
              simp [addVClusterHelm, hp, hpa, hb, hre, hpw]
            rw [hrun]
            exact applyPhase_all_usesClient options woken c env false
              [Effect.question v.Name, Effect.resume name, Effect.pollWake name]
              rfl

theorem batch_fold_all_usesClient (options : AddVClusterOptions) (c : KubeClient)
    (env : BatchEnv) (l : List VCluster) (acc : List Effect × VClusterAddError)
    (hacc : acc.1.all (Effect.usesClient c) = true) :
    ((l.foldl (fun (acc : List Effect × VClusterAddError) v =>
        let r := addVClusterHelm options v.Name v c (env.target v.Name)
        (acc.1 ++ r.1, acc.2.addErr v.Name r.2)) acc).1.all
      (Effect.usesClient c)) = true := by
  induction l generalizing acc with
  | nil => simpa using hacc
  | cons x xs ih =>
    simp only [List.foldl_cons]
    apply ih
    simp [List.all_append, hacc, addVClusterHelm_all_usesClient]

/-- C9: the batch builds exactly one kube client, from the first
target's factory: a factory or client-construction failure aborts the
whole batch with that bare error and an empty effect trace, before any
per-target work, even when the remaining targets are healthy; otherwise
every secret application and pod deletion of the whole batch goes
through that one client. -/
theorem C9_single_bootstrap_client
    (options : AddVClusterOptions) (v0 : VCluster) (rest : List VCluster)
    (env : BatchEnv) :
    (∀ e, v0.ClientFactory = .error e →
      AddVClusterHelmBatch options (v0 :: rest) env = ([], some e)) ∧
    (∀ rc e, v0.ClientFactory = .ok rc → env.newForConfig rc = .error e →
      AddVClusterHelmBatch options (v0 :: rest) env = ([], some e)) ∧
    (∀ rc c, v0.ClientFactory = .ok rc → env.newForConfig rc = .ok c →
      (AddVClusterHelmBatch options (v0 :: rest) env).1.all (Effect.usesClient c)
        = true) := by
  refine ⟨?_, ?_, ?_⟩
  · intro e hf
    simp [AddVClusterHelmBatch, hf]
  · intro rc e hf hc
    simp [AddVClusterHelmBatch, hf, hc]
  · intro rc c hf hc
    simp only [AddVClusterHelmBatch, hf, hc]
    exact batch_fold_all_usesClient options c env (v0 :: rest) ([], ⟨[]⟩) rfl

/-- C9 witness: the first target's factory fails while its sibling is
healthy; the batch aborts with the bare factory error and no effects. -/
theorem C9_single_bootstrap_client_witness :
    badFactoryVC.ClientFactory = Except.error (GoError.new "connection refused") ∧
    AddVClusterHelmBatch sampleOptionsNoRestart [badFactoryVC, activeVC]
        idealBatchEnv
      = ([], some (GoError.new "connection refused")) :=
  ⟨rfl,
   (C9_single_bootstrap_client sampleOptionsNoRestart badFactoryVC [activeVC]
     idealBatchEnv).1 (GoError.new "connection refused") rfl⟩

end VClusterAdd

namespace PlatformBackup

open VClusterAdd (GoError RestConfig KubeClient)

theorem backupCollectAndWrite_eq (cmd : BackupCmd) (env : BackupEnv)
    (rc : RestConfig) (cl : KubeClient) (pre : List BackupEffect)
    (h3 : env.clientNew rc = .ok cl) :
    backupCollectAndWrite cmd env rc pre
      = (pre ++ [BackupEffect.collect cmd.Skip]
          ++ (env.backupAll cl cmd.Skip).2.map (fun e => BackupEffect.warn e.message)
          ++ (match env.toYAML (env.backupAll cl cmd.Skip).1 with
              | .error _ => []
              | .ok bytes =>
                BackupEffect.infoWriting cmd.Filename
                  :: BackupEffect.writeFile cmd.Filename bytes 0o644
                  :: (match env.writeFile cmd.Filename bytes 0o644 with
                      | some _ => []
                      | none => [BackupEffect.doneWrote cmd.Filename])),
         match env.toYAML (env.backupAll cl cmd.Skip).1 with
         | .error err => some err
         | .ok bytes => env.writeFile cmd.Filename bytes 0o644) := by
  cases hty : env.toYAML (env.backupAll cl cmd.Skip).1 with
  | error err => simp [backupCollectAndWrite, h3, hty, List.append_assoc]
  | ok bytes =>
    cases hwf : env.writeFile cmd.Filename bytes 0o644 with
    | some err => simp [backupCollectAndWrite, h3, hty, hwf, List.append_assoc]
    | none => simp [backupCollectAndWrite, h3, hty, hwf, List.append_assoc]

/-- C8: once a backup invocation reaches collection, every collector
error becomes exactly one warning effect and never influences the
returned error, which is decided solely by serialization and the file
write; on the success path the serialized bytes are written whole to the
configured filename with mode 0644, and a write failure is returned
verbatim. -/
theorem C8_backup_warnings_and_exit_status
    (cmd : BackupCmd) (env : BackupEnv) (rc : RestConfig) (k : KubeClient)
    (cl : KubeClient)
    (h1 : env.kubeConfig = .ok rc)
    (h2 : env.newForConfig rc = .ok k)
    (hgate : env.isInstalled = .ok true ∨
      (env.isInstalled = .ok false ∧ env.promptAnswer = .ok "Yes"))
    (h3 : env.clientNew rc = .ok cl) :
    ∃ pre : List BackupEffect,
      (∀ p ∈ pre, ∃ ns, p = BackupEffect.question ns) ∧
      BackupCmd.run cmd env
        = (pre ++ [BackupEffect.collect cmd.Skip]
            ++ (env.backupAll cl cmd.Skip).2.map
                (fun e => BackupEffect.warn e.message)
            ++ (match env.toYAML (env.backupAll cl cmd.Skip).1 with
                | .error _ => []
                | .ok bytes =>
                  BackupEffect.infoWriting cmd.Filename
                    :: BackupEffect.writeFile cmd.Filename bytes 0o644
                    :: (match env.writeFile cmd.Filename bytes 0o644 with
                        | some _ => []
                        | none => [BackupEffect.doneWrote cmd.Filename])),
           match env.toYAML (env.backupAll cl cmd.Skip).1 with
           | .error err => some err
           | .ok bytes => env.writeFile cmd.Filename bytes 0o644) := by
  rcases hgate with hg | ⟨hg, hpa⟩
  · refine ⟨[], by simp, ?_⟩
    have hrun : BackupCmd.run cmd env = backupCollectAndWrite cmd env rc [] := by
      simp [BackupCmd.run, h1, h2, hg]
    rw [hrun]
    exact backupCollectAndWrite_eq cmd env rc cl [] h3
  · refine ⟨[BackupEffect.question cmd.Namespace], by simp, ?_⟩
    have hrun : BackupCmd.run cmd env
        = backupCollectAndWrite cmd env rc [BackupEffect.question cmd.Namespace] := by
      simp [BackupCmd.run, h1, h2, hg, hpa]
    rw [hrun]
    exact backupCollectAndWrite_eq cmd env rc cl
      [BackupEffect.question cmd.Namespace] h3

/-- C8 witness: an installed platform, one collection error, successful
serialization and write. -/
theorem C8_backup_warnings_and_exit_status_witness :
    okBackupEnv.kubeConfig = Except.ok 1 ∧
    okBackupEnv.isInstalled = Except.ok true ∧
    okBackupEnv.clientNew 1 = Except.ok 1 ∧
    (∃ pre : List BackupEffect,
      (∀ p ∈ pre, ∃ ns, p = BackupEffect.question ns) ∧
      BackupCmd.run sampleBackupCmd okBackupEnv
        = (pre ++ [BackupEffect.collect sampleBackupCmd.Skip]
            ++ (okBackupEnv.backupAll 1 sampleBackupCmd.Skip).2.map
                (fun e => BackupEffect.warn e.message)
            ++ (match okBackupEnv.toYAML (okBackupEnv.backupAll 1 sampleBackupCmd.Skip).1 with
                | .error _ => []
                | .ok bytes =>
                  BackupEffect.infoWriting sampleBackupCmd.Filename
                    :: BackupEffect.writeFile sampleBackupCmd.Filename bytes 0o644
                    :: (match okBackupEnv.writeFile sampleBackupCmd.Filename bytes 0o644 with
                        | some _ => []
                        | none => [BackupEffect.doneWrote sampleBackupCmd.Filename])),
           match okBackupEnv.toYAML (okBackupEnv.backupAll 1 sampleBackupCmd.Skip).1 with
           | .error err => some err
           | .ok bytes => okBackupEnv.writeFile sampleBackupCmd.Filename bytes 0o644)) :=
  ⟨rfl, rfl, rfl,
   C8_backup_warnings_and_exit_status sampleBackupCmd okBackupEnv 1 1 1
     rfl rfl (Or.inl rfl) rfl⟩

end PlatformBackup

namespace VClusterAdd

/-- C3 witness: concrete sequences of zero, one and three stored errors. -/
theorem C3_CombinedError_characterization_witness :
    VClusterAddError.CombinedError ⟨[]⟩ = none ∧
    VClusterAddError.CombinedError ⟨[GoError.new "a"]⟩ = some (GoError.new "a") ∧
    VClusterAddError.CombinedError
        ⟨[GoError.new "a", GoError.new "b", GoError.new "c"]⟩
      = some (.new (pipeChain [GoError.new "a", GoError.new "b", GoError.new "c"])) :=
  C3_CombinedError_characterization (GoError.new "a") (GoError.new "a")
    (GoError.new "b") [GoError.new "c"]

/-- C4 witness: recording a nil result and then an error for one target. -/
theorem C4_addErr_contract_witness :
    (VClusterAddError.mk []).addErr "web" none = ⟨[]⟩ ∧
    (VClusterAddError.mk []).addErr "web" (some (GoError.new "boom"))
      = ⟨[] ++ [.wrapf ("cannot add vcluster " ++ "web" ++ ": "
          ++ (GoError.new "boom").message) (GoError.new "boom")]⟩ ∧
    ((VClusterAddError.mk []).CombinedError = none
      ↔ (VClusterAddError.mk []).errs = []) :=
  C4_addErr_contract ⟨[]⟩ "web" (GoError.new "boom")

end VClusterAdd
